import Mathlib

/-!
# Ethereum beacon-chain light client — verification of the update engine

A shallow embedding of `parachain/pallets/ethereum-beacon-client/src/lib.rs`:
the pallet's persistent storage becomes an explicit `State` record, each
dispatchable becomes a function `State → Except Err State`, and the FRAME
`#[transactional]` wrapper becomes `dispatch`, which returns the pre-call
state whenever the inner processing function errors.

Byte strings are modelled as `Nat` values read big-endian: a 32-byte hash
(`H256`) is a `Nat < 2^256` whose most significant byte is byte 0 of the hash;
a 48-byte BLS public key is a `Nat < 2^384`.  Machine integers (`u64`, `u32`)
are `Nat` with explicit `% 2^w` at the operations where the Rust code can
wrap; wrapping semantics (release build) is assumed throughout, and the one
operation that faults in every build configuration — division by a zero that
a wrapped 32-bit power produces — is modelled as `Option.none`.

The repository sources provide `lib.rs` but not the sibling modules
`merkleization.rs` / `ssz.rs`, nor the external `milagro_bls` crate.  The
merkleization functions whose algorithms the specification fixes (hash tree
roots of `BeaconHeader`, `SyncCommittee`, `ForkData`, `SigningData`, and the
sync-committee-bits decoder) are modelled from the spec, §4.B/§4.E/§4.F, and
implemented executably.  The pieces the specification leaves abstract — the
BLS12-381 primitives and the hash tree root of the beacon block body (whose
field-by-field schema the spec declares out of scope) — are collected in an
`Api` parameter; theorems quantify over it unless a concrete instantiation is
needed, in which case an explicit total instance is supplied.
-/

set_option maxRecDepth 100000

namespace Snowbridge

/-! ## SHA-256 over 64-byte inputs (sp_io::hashing::sha2_256)

The engine only ever hashes 64-byte messages: the concatenation of two
32-byte chunks.  `sha256Pair a b` is SHA-256 of the 64-byte message whose
first 32 bytes are `a` and last 32 bytes are `b`, as a big-endian `Nat`. -/

/-- SHA-256 round constants (FIPS 180-4). -/
def shaK : List Nat :=
  [1116352408, 1899447441, 3049323471, 3921009573, 961987163,
   1508970993, 2453635748, 2870763221, 3624381080, 310598401,
   607225278, 1426881987, 1925078388, 2162078206, 2614888103,
   3248222580, 3835390401, 4022224774, 264347078, 604807628,
   770255983, 1249150122, 1555081692, 1996064986, 2554220882,
   2821834349, 2952996808, 3210313671, 3336571891, 3584528711,
   113926993, 338241895, 666307205, 773529912, 1294757372,
   1396182291, 1695183700, 1986661051, 2177026350, 2456956037,
   2730485921, 2820302411, 3259730800, 3345764771, 3516065817,
   3600352804, 4094571909, 275423344, 430227734, 506948616,
   659060556, 883997877, 958139571, 1322822218, 1537002063,
   1747873779, 1955562222, 2024104815, 2227730452, 2361852424,
   2428436474, 2756734187, 3204031479, 3329325298]

/-- 32-bit right rotation. -/
def rotr (x n : Nat) : Nat :=
  ((x >>> n) ||| (x <<< (32 - n))) % 4294967296

/-- Message-schedule sigma-0. -/
def shaS0 (x : Nat) : Nat := (rotr x 7) ^^^ (rotr x 18) ^^^ (x >>> 3)

/-- Message-schedule sigma-1. -/
def shaS1 (x : Nat) : Nat := (rotr x 17) ^^^ (rotr x 19) ^^^ (x >>> 10)

/-- Forces a `Nat` to a literal before yielding its continuation: evaluation
of the long SHA-256 iteration stays iterative instead of building deep
thunk chains.  Semantically the identity on `k`. -/
def seqNat {α : Type} : Nat → α → α
  | 0, k => k
  | _ + 1, k => k

/-- Message-schedule extension; `acc` holds the schedule built so far, in
reverse, each word forced as it is produced. -/
def shaExtend : Nat → List Nat → List Nat
  | 0, acc => acc
  | n + 1, acc =>
      let w := (shaS1 (acc.getD 1 0) + acc.getD 6 0 + shaS0 (acc.getD 14 0) + acc.getD 15 0)
        % 4294967296
      seqNat w (shaExtend n (w :: acc))

/-- The eight 32-bit working variables of the SHA-256 compression. -/
structure ShaState where
  a : Nat
  b : Nat
  c : Nat
  d : Nat
  e : Nat
  f : Nat
  g : Nat
  h : Nat

/-- Compression sigma-0. -/
def shaB0 (x : Nat) : Nat := (rotr x 2) ^^^ (rotr x 13) ^^^ (rotr x 22)

/-- Compression sigma-1. -/
def shaB1 (x : Nat) : Nat := (rotr x 6) ^^^ (rotr x 11) ^^^ (rotr x 25)

/-- The choose function. -/
def shaCh (e f g : Nat) : Nat := (e &&& f) ^^^ ((e ^^^ 4294967295) &&& g)

/-- The majority function. -/
def shaMaj (a b c : Nat) : Nat := (a &&& b) ^^^ (a &&& c) ^^^ (b &&& c)

/-- The SHA-256 rounds over the (schedule word, round constant) pairs, the
two fresh working variables of each round forced as they are produced. -/
def shaRoundsGo : List (Nat × Nat) → Nat → Nat → Nat → Nat → Nat → Nat → Nat → Nat → ShaState
  | [], a, b, c, d, e, f, g, h => ⟨a, b, c, d, e, f, g, h⟩
  | wk :: rest, a, b, c, d, e, f, g, h =>
      let t1 := (h + shaB1 e + shaCh e f g + wk.2 + wk.1) % 4294967296
      let t2 := (shaB0 a + shaMaj a b c) % 4294967296
      let a1 := (t1 + t2) % 4294967296
      let e1 := (d + t1) % 4294967296
      seqNat a1 (seqNat e1 (shaRoundsGo rest a1 a b c e1 e f g))

/-- One SHA-256 compression of the 16-word block `ws` into the chaining state `hs`. -/
def shaCompress (hs : ShaState) (ws : List Nat) : ShaState :=
  let sched := (shaExtend 48 ws.reverse).reverse
  let st := shaRoundsGo (sched.zip shaK) hs.a hs.b hs.c hs.d hs.e hs.f hs.g hs.h
  ⟨(hs.a + st.a) % 4294967296, (hs.b + st.b) % 4294967296, (hs.c + st.c) % 4294967296,
   (hs.d + st.d) % 4294967296, (hs.e + st.e) % 4294967296, (hs.f + st.f) % 4294967296,
   (hs.g + st.g) % 4294967296, (hs.h + st.h) % 4294967296⟩

/-- The SHA-256 initial chaining state. -/
def shaInit : ShaState :=
  ⟨1779033703, 3144134277, 1013904242, 2773480762, 1359893119, 2600822924, 528734635, 1541459225⟩

/-- The eight 32-bit words of a 256-bit value, big-endian. -/
def wordsOf256 (x : Nat) : List Nat :=
  [(x >>> 224) % 4294967296, (x >>> 192) % 4294967296, (x >>> 160) % 4294967296,
   (x >>> 128) % 4294967296, (x >>> 96) % 4294967296, (x >>> 64) % 4294967296,
   (x >>> 32) % 4294967296, x % 4294967296]

/-- Second block of a padded 64-byte message: the 0x80 marker byte, zeros,
and the 512-bit message length. -/
def shaPadBlock : List Nat := [2147483648, 0, 0, 0, 0, 0, 0, 0, 0, 0, 0, 0, 0, 0, 0, 512]

/-- SHA-256 of the 64-byte concatenation of the 32-byte values `x` and `y`
(big-endian `Nat`s), producing the 32-byte digest as a big-endian `Nat`.
Checked against library SHA-256: `sha256Pair 0 0` is the well-known zero
subtree hash `0xf5a5fd42d16a20302798ef6ed309979b43003d2320d9f0e8ea9831a92759fb4b`. -/
def sha256Pair (x y : Nat) : Nat :=
  let st1 := shaCompress shaInit (wordsOf256 x ++ wordsOf256 y)
  let st2 := shaCompress st1 shaPadBlock
  ((((((st2.a <<< 32 ||| st2.b) <<< 32 ||| st2.c) <<< 32 ||| st2.d) <<< 32 ||| st2.e) <<< 32
    ||| st2.f) <<< 32 ||| st2.g) <<< 32 ||| st2.h

/-! ## Data model (snowbridge_beacon types, from their use in lib.rs) -/

/-- A 32-byte hash, as a big-endian `Nat`. -/
abbrev H256 := Nat

/-- A 48-byte compressed BLS12-381 G1 public key, as a big-endian `Nat`. -/
abbrev PublicKey := Nat

/-- BeaconHeader: `slot` and `proposer_index` are `u64`, the three roots 32-byte hashes. -/
structure BeaconHeader where
  slot : Nat
  proposer_index : Nat
  parent_root : H256
  state_root : H256
  body_root : H256
  deriving DecidableEq

/-- SyncCommittee: 512 member public keys plus one aggregate public key.
The Rust field is a `Vec`, so the length is not enforced by the type;
`hash_tree_root_sync_committee` rejects any length other than 512. -/
structure SyncCommittee where
  pubkeys : List PublicKey
  aggregate_pubkey : PublicKey
  deriving DecidableEq

/-- SyncAggregate: the 64-byte packed participation bitfield and the 96-byte
aggregate signature, both as byte lists. -/
structure SyncAggregate where
  sync_committee_bits : List Nat
  sync_committee_signature : List Nat
  deriving DecidableEq

/-- ExecutionPayload, with the fields lib.rs reads when building an
`ExecutionHeader` record (fee_recipient is 20 bytes, logs_bloom and
extra_data byte lists, the rest `u64`/`U256`/hashes). -/
structure ExecutionPayload where
  parent_hash : H256
  fee_recipient : Nat
  state_root : H256
  receipts_root : H256
  logs_bloom : List Nat
  prev_randao : H256
  block_number : Nat
  gas_used : Nat
  gas_limit : Nat
  timestamp : Nat
  extra_data : List Nat
  base_fee_per_gas : Nat
  block_hash : H256
  transactions_root : H256
  deriving DecidableEq

/-- ExecutionHeader: the record stored under the execution block hash;
field-for-field the payload data (fee_recipient re-packed through `H160`,
an identity on the 20-byte value). -/
structure ExecutionHeader where
  parent_hash : H256
  fee_recipient : Nat
  state_root : H256
  receipts_root : H256
  logs_bloom : List Nat
  prev_randao : H256
  block_number : Nat
  gas_used : Nat
  gas_limit : Nat
  timestamp : Nat
  extra_data : List Nat
  base_fee_per_gas : Nat
  block_hash : H256
  transactions_root : H256
  deriving DecidableEq

/-- The beacon block body.  lib.rs reads only `execution_payload` from it; the
remaining fields feed exclusively into the body's hash tree root, which the
spec leaves schema-abstract (§1), so they are not enumerated here and the
body root is an `Api` operation. -/
structure BeaconBody where
  execution_payload : ExecutionPayload
  deriving DecidableEq

/-- The beacon block of a `BlockUpdate`, with the fields lib.rs reads. -/
structure BeaconBlock where
  slot : Nat
  proposer_index : Nat
  parent_root : H256
  state_root : H256
  body : BeaconBody
  deriving DecidableEq

/-- ForkData: 4-byte fork version plus the genesis validators root. -/
structure ForkData where
  current_version : Nat
  genesis_validators_root : H256
  deriving DecidableEq

/-- SigningData: object root plus domain. -/
structure SigningData where
  object_root : H256
  domain : H256
  deriving DecidableEq

/-- InitialSync payload. -/
structure InitialSync where
  header : BeaconHeader
  current_sync_committee : SyncCommittee
  current_sync_committee_branch : List H256
  validators_root : H256
  deriving DecidableEq

/-- SyncCommitteePeriodUpdate payload. -/
structure SyncCommitteePeriodUpdate where
  attested_header : BeaconHeader
  next_sync_committee : SyncCommittee
  next_sync_committee_branch : List H256
  finalized_header : BeaconHeader
  finality_branch : List H256
  sync_aggregate : SyncAggregate
  fork_version : Nat
  sync_committee_period : Nat
  deriving DecidableEq

/-- FinalizedHeaderUpdate payload. -/
structure FinalizedHeaderUpdate where
  attested_header : BeaconHeader
  finalized_header : BeaconHeader
  finality_branch : List H256
  sync_aggregate : SyncAggregate
  fork_version : Nat
  deriving DecidableEq

/-- BlockUpdate payload. -/
structure BlockUpdate where
  block : BeaconBlock
  sync_aggregate : SyncAggregate
  fork_version : Nat
  deriving DecidableEq

deriving instance DecidableEq for Except

/-- The pallet's error enum (`Error<T>`), plus `other` for
`DispatchError::Other(..)` string errors, which lib.rs uses for hash tree
root and bit-decoding failures. -/
inductive Err where
  | ancientHeader
  | skippedSyncCommitteePeriod
  | syncCommitteeMissing
  | unknown
  | syncCommitteeParticipantsNotSupermajority
  | invalidSyncCommiteeSignature
  | invalidHeaderMerkleProof
  | invalidSyncCommitteeMerkleProof
  | invalidSignature
  | invalidSignaturePoint
  | invalidAggregatePublicKeys
  | invalidHash
  | signatureVerificationFailed
  | noBranchExpected
  | headerNotFinalized
  | other (msg : String)
  deriving DecidableEq

/-- The decode-failure kinds of `milagro_bls::PublicKey::from_bytes_unchecked`
that lib.rs distinguishes: `AmclError::InvalidPoint` versus everything else. -/
inductive AmclErr where
  | invalidPoint
  | otherDecodeFailure
  deriving DecidableEq

/-- The external primitives the engine composes but whose internals are out of
scope: the milagro BLS12-381 library and the hash tree root of the
schema-abstract beacon block body.  Theorems quantify over this structure. -/
structure Api where
  /-- `Signature::from_bytes` succeeds on these 96-byte strings. -/
  signature_from_bytes_ok : List Nat → Bool
  /-- `PublicKey::from_bytes_unchecked`: `none` is success, `some` a decode failure. -/
  public_key_decode : PublicKey → Option AmclErr
  /-- `AggregatePublicKey::into_aggregate` succeeds on this key list. -/
  aggregate_ok : List PublicKey → Bool
  /-- `fast_aggregate_verify_pre_aggregated`, as a function of the
  participant keys, the 32-byte message, and the signature bytes. -/
  fast_aggregate_verify : List PublicKey → H256 → List Nat → Bool
  /-- `merkleization::hash_tree_root_beacon_body`. -/
  hash_tree_root_beacon_body : BeaconBody → Except Unit H256

/-! ## Association-list storage maps

`StorageMap` reads and writes, as insert-front association lists with
duplicate keys erased on insert. -/

/-- Insert `(k, v)`, replacing any previous binding of `k`. -/
def mapInsert {V : Type} (k : Nat) (v : V) (m : List (Nat × V)) : List (Nat × V) :=
  (k, v) :: m.filter (fun p => p.1 != k)

/-- Look up `k`. -/
def mapLookup {V : Type} (k : Nat) (m : List (Nat × V)) : Option V :=
  (m.find? (fun p => p.1 == k)).map Prod.snd

/-- The pallet's persistent storage items. -/
structure State where
  finalized_beacon_headers : List (H256 × BeaconHeader)
  beacon_headers : List (H256 × BeaconHeader)
  execution_headers : List (H256 × ExecutionHeader)
  sync_committees : List (Nat × SyncCommittee)
  validators_root : H256
  latest_finalized_header_slot : Nat
  deriving DecidableEq

/-- Genesis storage: empty maps, zero values (`ValueQuery` defaults). -/
def initial_state : State := ⟨[], [], [], [], 0, 0⟩

/-! ## Constants (lib.rs lines 22-40) -/

def SLOTS_PER_EPOCH : Nat := 32

def EPOCHS_PER_SYNC_COMMITTEE_PERIOD : Nat := 256

def CURRENT_SYNC_COMMITTEE_INDEX : Nat := 22

def CURRENT_SYNC_COMMITTEE_DEPTH : Nat := 5

def NEXT_SYNC_COMMITTEE_DEPTH : Nat := 5

def NEXT_SYNC_COMMITTEE_INDEX : Nat := 23

def FINALIZED_ROOT_DEPTH : Nat := 6

def FINALIZED_ROOT_INDEX : Nat := 41

/-- `[30, 30, 30, 30]` as the 4 bytes big-endian. -/
def GENESIS_FORK_VERSION : Nat := 0x1e1e1e1e

/-- `[7, 0, 0, 0]` as the 4 bytes big-endian. -/
def DOMAIN_SYNC_COMMITTEE : Nat := 0x07000000

/-! ## SSZ hash tree roots

Modelled from the spec: the repository's `merkleization` module is not among
the provided sources; these functions implement §4.B of the specification
(little-endian packing of basic types into 32-byte chunks, pairwise SHA-256
merkleization with power-of-two padding, containers as the merkleization of
their field roots, 48-byte public keys as two chunks). -/

/-- `u64` byte swap: reverses the 8 bytes of `x % 2^64`. -/
def byteswap64 (x : Nat) : Nat :=
  (x % 256) <<< 56 ||| ((x >>> 8) % 256) <<< 48 ||| ((x >>> 16) % 256) <<< 40 |||
  ((x >>> 24) % 256) <<< 32 ||| ((x >>> 32) % 256) <<< 24 ||| ((x >>> 40) % 256) <<< 16 |||
  ((x >>> 48) % 256) <<< 8 ||| (x >>> 56) % 256

/-- A `u64` packed little-endian into a 32-byte chunk (bytes 0-7 hold the
value little-endian, bytes 8-31 are zero), as a big-endian `Nat`. -/
def le_chunk_u64 (x : Nat) : H256 := (byteswap64 (x % 18446744073709551616)) <<< 192

/-- Modelled from the spec: hash tree root of a `BeaconHeader` — five field
roots (two `u64` chunks, three hashes), padded to eight leaves and
merkleized.  A fixed-shape container cannot fail structurally, so the
function is total; lib.rs's `map_err` on it is dead code. -/
def hash_tree_root_beacon_header (h : BeaconHeader) : H256 :=
  sha256Pair
    (sha256Pair (sha256Pair (le_chunk_u64 h.slot) (le_chunk_u64 h.proposer_index))
                (sha256Pair h.parent_root h.state_root))
    (sha256Pair (sha256Pair h.body_root 0) (sha256Pair 0 0))

/-- Hash tree root of a 48-byte public key: two 32-byte chunks (the second
padded with 16 zero bytes), merkleized. -/
def pubkey_root (pk : PublicKey) : H256 :=
  sha256Pair (pk >>> 128) ((pk % 340282366920938463463374607431768211456) <<< 128)

/-- One merkleization level: hash adjacent pairs. -/
def merkleLevel : List Nat → List Nat
  | a :: b :: rest => sha256Pair a b :: merkleLevel rest
  | _ => []

/-- Merkleize a power-of-two-length leaf list down to its root; `fuel` bounds
the number of levels. -/
def merkleFuel : Nat → List Nat → Nat
  | _, [x] => x
  | 0, _ => 0
  | n + 1, l => merkleFuel n (merkleLevel l)

/-- Modelled from the spec: hash tree root of a `SyncCommittee` — the
512-element pubkey vector merkleized over the 512 pubkey roots, paired with
the aggregate pubkey root.  A pubkey vector of any other length is the
structural inconsistency the spec maps to the generic hash-tree-root
failure. -/
def hash_tree_root_sync_committee (c : SyncCommittee) : Except Unit H256 :=
  if c.pubkeys.length = 512 then
    .ok (sha256Pair (merkleFuel 10 (c.pubkeys.map pubkey_root)) (pubkey_root c.aggregate_pubkey))
  else
    .error ()

/-- Modelled from the spec: hash tree root of `ForkData` — the 4-byte version
chunk (bytes 0-3, rest zero) paired with the validators root. -/
def hash_tree_root_fork_data (f : ForkData) : H256 :=
  sha256Pair ((f.current_version % 4294967296) <<< 224) f.genesis_validators_root

/-- Modelled from the spec: hash tree root of `SigningData` — object root
paired with domain. -/
def hash_tree_root_signing_data (s : SigningData) : H256 :=
  sha256Pair s.object_root s.domain

/-- Modelled from the spec: decode the 64-byte little-endian-packed
sync-committee bitfield into 512 bits, bit `j` of byte `i` (LSB first)
becoming element `8 * i + j`; any other byte length is a decode error. -/
def get_sync_committee_bits (bytes : List Nat) : Except Unit (List Nat) :=
  if bytes.length = 64 then
    .ok (bytes.flatMap (fun b =>
      [b &&& 1, (b >>> 1) &&& 1, (b >>> 2) &&& 1, (b >>> 3) &&& 1,
       (b >>> 4) &&& 1, (b >>> 5) &&& 1, (b >>> 6) &&& 1, (b >>> 7) &&& 1]))
  else
    .error ()

/-! ## Pallet helper functions (lib.rs lines 481-759) -/

/-- `get_sync_committee_sum`: fold the byte vector into a `u64` sum. -/
def get_sync_committee_sum (sync_committee_bits : List Nat) : Nat :=
  sync_committee_bits.foldl (fun acc x => (acc + x) % 18446744073709551616) 0

/-- `compute_current_sync_period`: `slot / 32 / 256`. -/
def compute_current_sync_period (slot : Nat) : Nat :=
  slot / SLOTS_PER_EPOCH / EPOCHS_PER_SYNC_COMMITTEE_PERIOD

/-- `sync_committee_participation_is_supermajority`: `sum * 3 ≥ len * 2` in
`u64` arithmetic. -/
def sync_committee_participation_is_supermajority (sync_committee_bits : List Nat) :
    Except Err Unit :=
  if (get_sync_committee_sum sync_committee_bits * 3) % 18446744073709551616 ≥
      (sync_committee_bits.length * 2) % 18446744073709551616 then
    .ok ()
  else
    .error .syncCommitteeParticipantsNotSupermajority

/-- The loop of `is_valid_merkle_branch`: fold the branch onto `value`,
starting at bit position `i`.  The direction divisor is the Rust
`2u32.pow(i as u32) as u64`, which wraps to zero 32-bit-wise once `i ≥ 32`;
the `index / 0` that follows faults in every build configuration, modelled
as `none`. -/
def merkle_branch_fold (index : Nat) : List H256 → Nat → H256 → Option H256
  | [], _, value => some value
  | b :: rest, i, value =>
      let p := (2 ^ i) % 4294967296
      if p = 0 then none
      else
        merkle_branch_fold index rest (i + 1)
          (if index / p % 2 = 0 then sha256Pair value b else sha256Pair b value)

/-- `is_valid_merkle_branch` (lib.rs lines 701-740): reject a branch whose
length differs from `depth`, otherwise fold and compare with `root`.
The Rust `.len() < 32` re-checks on `H256` values are vacuously false (the
type is exactly 32 bytes) and are omitted.  `none` is the arithmetic fault
of the 32-bit power, reachable only when `depth ≥ 33`. -/
def is_valid_merkle_branch (leaf : H256) (branch : List H256) (depth index : Nat)
    (root : H256) : Option Bool :=
  if branch.length = depth then
    (merkle_branch_fold index branch 0 leaf).map (fun value => value == root)
  else
    some false

/-- `get_sync_committee_for_period`: a `ValueQuery` read followed by the
all-zero-committee absence test. -/
def get_sync_committee_for_period (s : State) (period : Nat) : Except Err SyncCommittee :=
  let sync_committee := (mapLookup period s.sync_committees).getD ⟨[], 0⟩
  if sync_committee = SyncCommittee.mk [] 0 then .error .syncCommitteeMissing
  else .ok sync_committee

/-- `compute_fork_data_root`. -/
def compute_fork_data_root (current_version : Nat) (genesis_validators_root : H256) : H256 :=
  hash_tree_root_fork_data ⟨current_version, genesis_validators_root⟩

/-- `compute_domain`: the 4 domain-type bytes followed by the first 28 bytes
of the fork data root. -/
def compute_domain (domain_type : Nat) (fork_version : Option Nat)
    (genesis_validators_root : H256) : H256 :=
  let unwrapped_fork_version := fork_version.getD GENESIS_FORK_VERSION
  let fork_data_root := compute_fork_data_root unwrapped_fork_version genesis_validators_root
  ((domain_type % 4294967296) <<< 224) ||| (fork_data_root >>> 32)

/-- `compute_signing_root`. -/
def compute_signing_root (beacon_header : BeaconHeader) (domain : H256) : H256 :=
  hash_tree_root_signing_data ⟨hash_tree_root_beacon_header beacon_header, domain⟩

/-- `bls_fast_aggregate_verify` (lib.rs lines 514-549): signature decode,
per-key decode with `InvalidPoint` distinguished, aggregation, pairing
check, each failure mapped to its error. -/
def bls_fast_aggregate_verify (api : Api) (pubkeys : List PublicKey) (message : H256)
    (signature : List Nat) : Except Err Unit :=
  if api.signature_from_bytes_ok signature then
    match pubkeys.findSome? api.public_key_decode with
    | some .invalidPoint => .error .invalidSignaturePoint
    | some .otherDecodeFailure => .error .invalidSignature
    | none =>
        if api.aggregate_ok pubkeys then
          if api.fast_aggregate_verify pubkeys message signature then .ok ()
          else .error .signatureVerificationFailed
        else .error .invalidAggregatePublicKeys
  else .error .invalidSignature

/-- `verify_signed_header` (lib.rs lines 481-512): select the participant
keys by the bit vector, compute domain and signing root, verify. -/
def verify_signed_header (api : Api) (sync_committee_bits : List Nat)
    (sync_committee_signature : List Nat) (sync_committee_pubkeys : List PublicKey)
    (fork_version : Nat) (header : BeaconHeader) (validators_root : H256) : Except Err Unit :=
  let participant_pubkeys :=
    (sync_committee_bits.zip sync_committee_pubkeys).filterMap
      (fun p => if p.1 = 1 then some p.2 else none)
  let domain := compute_domain DOMAIN_SYNC_COMMITTEE (some fork_version) validators_root
  let signing_root := compute_signing_root header domain
  bls_fast_aggregate_verify api participant_pubkeys signing_root sync_committee_signature

/-- `verify_sync_committee` (lib.rs lines 569-592).  The branch fold's
arithmetic fault is unreachable here (depth is 5 at both call sites), so the
`Option` is collapsed with `getD false`. -/
def verify_sync_committee (sync_committee : SyncCommittee) (sync_committee_branch : List H256)
    (header_state_root : H256) (depth index : Nat) : Except Err Unit :=
  match hash_tree_root_sync_committee sync_committee with
  | .error _ => .error (.other "Sync committee hash tree root failed")
  | .ok sync_committee_root =>
      if (is_valid_merkle_branch sync_committee_root sync_committee_branch depth index
            header_state_root).getD false then
        .ok ()
      else .error .invalidSyncCommitteeMerkleProof

/-- `verify_header` (lib.rs lines 594-613); depth is 6 at both call sites, so
the arithmetic fault is likewise unreachable. -/
def verify_header (block_root : H256) (proof_branch : List H256)
    (attested_header_state_root : H256) (depth index : Nat) : Except Err Unit :=
  if (is_valid_merkle_branch block_root proof_branch depth index
        attested_header_state_root).getD false then
    .ok ()
  else .error .invalidHeaderMerkleProof

/-! ## Storage writers (lib.rs lines 615-649) -/

/-- `store_sync_committee`: an unconditional insert. -/
def store_sync_committee (period : Nat) (sync_committee : SyncCommittee) (s : State) : State :=
  { s with sync_committees := mapInsert period sync_committee s.sync_committees }

/-- `store_finalized_header`: insert under the block root, then raise
`LatestFinalizedHeaderSlot` if the new slot exceeds it. -/
def store_finalized_header (block_root : H256) (header : BeaconHeader) (s : State) : State :=
  let s1 := { s with
    finalized_beacon_headers := mapInsert block_root header s.finalized_beacon_headers }
  if header.slot > s1.latest_finalized_header_slot then
    { s1 with latest_finalized_header_slot := header.slot }
  else s1

/-- `store_execution_header`. -/
def store_execution_header (block_root : H256) (header : ExecutionHeader) (s : State) : State :=
  { s with execution_headers := mapInsert block_root header s.execution_headers }

/-- `store_validators_root`. -/
def store_validators_root (validators_root : H256) (s : State) : State :=
  { s with validators_root := validators_root }

/-! ## Processing functions (lib.rs lines 325-479)

Each becomes `Api → State → payload → Except Err State`; storage writes
thread through the state in the order the Rust code performs them, so an
error after a write returns only the error — `dispatch` below supplies the
`#[transactional]` rollback. -/

/-- `process_initial_sync` (lib.rs lines 325-344). -/
def process_initial_sync (_api : Api) (s : State) (u : InitialSync) : Except Err State :=
  match verify_sync_committee u.current_sync_committee u.current_sync_committee_branch
      u.header.state_root CURRENT_SYNC_COMMITTEE_DEPTH CURRENT_SYNC_COMMITTEE_INDEX with
  | .error e => .error e
  | .ok _ =>
      .ok (store_validators_root u.validators_root
            (store_finalized_header (hash_tree_root_beacon_header u.header) u.header
              (store_sync_committee (compute_current_sync_period u.header.slot)
                u.current_sync_committee s)))

/-- `process_sync_committee_period_update` (lib.rs lines 346-388).  Note: the
current committee is read with a raw `ValueQuery` get (line 373), not with
`get_sync_committee_for_period`, and the next committee is stored (line 371)
before the signature is verified. -/
def process_sync_committee_period_update (api : Api) (s : State)
    (u : SyncCommitteePeriodUpdate) : Except Err State :=
  match get_sync_committee_bits u.sync_aggregate.sync_committee_bits with
  | .error _ => .error (.other "Couldn't process sync committee bits")
  | .ok sync_committee_bits =>
  match sync_committee_participation_is_supermajority sync_committee_bits with
  | .error e => .error e
  | .ok _ =>
  match verify_sync_committee u.next_sync_committee u.next_sync_committee_branch
      u.finalized_header.state_root NEXT_SYNC_COMMITTEE_DEPTH NEXT_SYNC_COMMITTEE_INDEX with
  | .error e => .error e
  | .ok _ =>
  match verify_header (hash_tree_root_beacon_header u.finalized_header) u.finality_branch
      u.attested_header.state_root FINALIZED_ROOT_DEPTH FINALIZED_ROOT_INDEX with
  | .error e => .error e
  | .ok _ =>
  match verify_signed_header api sync_committee_bits u.sync_aggregate.sync_committee_signature
      ((mapLookup (compute_current_sync_period u.attested_header.slot)
          (store_sync_committee (compute_current_sync_period u.attested_header.slot + 1)
            u.next_sync_committee s).sync_committees).getD ⟨[], 0⟩).pubkeys
      u.fork_version u.attested_header
      (store_sync_committee (compute_current_sync_period u.attested_header.slot + 1)
        u.next_sync_committee s).validators_root with
  | .error e => .error e
  | .ok _ =>
      .ok (store_finalized_header (hash_tree_root_beacon_header u.finalized_header)
            u.finalized_header
            (store_sync_committee (compute_current_sync_period u.attested_header.slot + 1)
              u.next_sync_committee s))

/-- `process_finalized_header` (lib.rs lines 390-421). -/
def process_finalized_header (api : Api) (s : State) (u : FinalizedHeaderUpdate) :
    Except Err State :=
  match get_sync_committee_bits u.sync_aggregate.sync_committee_bits with
  | .error _ => .error (.other "Couldn't process sync committee bits")
  | .ok sync_committee_bits =>
  match sync_committee_participation_is_supermajority sync_committee_bits with
  | .error e => .error e
  | .ok _ =>
  match verify_header (hash_tree_root_beacon_header u.finalized_header) u.finality_branch
      u.attested_header.state_root FINALIZED_ROOT_DEPTH FINALIZED_ROOT_INDEX with
  | .error e => .error e
  | .ok _ =>
  match get_sync_committee_for_period s (compute_current_sync_period u.attested_header.slot) with
  | .error e => .error e
  | .ok sync_committee =>
  match verify_signed_header api sync_committee_bits u.sync_aggregate.sync_committee_signature
      sync_committee.pubkeys u.fork_version u.attested_header s.validators_root with
  | .error e => .error e
  | .ok _ =>
      .ok (store_finalized_header (hash_tree_root_beacon_header u.finalized_header)
            u.finalized_header s)

/-- The `ExecutionHeader` record `process_header` builds from the payload
(lib.rs lines 461-476). -/
def execution_header_of_payload (p : ExecutionPayload) : ExecutionHeader :=
  ⟨p.parent_hash, p.fee_recipient, p.state_root, p.receipts_root, p.logs_bloom,
   p.prev_randao, p.block_number, p.gas_used, p.gas_limit, p.timestamp, p.extra_data,
   p.base_fee_per_gas, p.block_hash, p.transactions_root⟩

/-- `process_header` (lib.rs lines 423-479): the finalization bound is the
first check; the reconstructed `BeaconHeader` is signature-verified but never
stored. -/
def process_header (api : Api) (s : State) (u : BlockUpdate) : Except Err State :=
  if u.block.slot > s.latest_finalized_header_slot then .error .headerNotFinalized
  else
  match get_sync_committee_for_period s (compute_current_sync_period u.block.slot) with
  | .error e => .error e
  | .ok sync_committee =>
  match api.hash_tree_root_beacon_body u.block.body with
  | .error _ => .error (.other "Beacon body hash tree root failed")
  | .ok body_root =>
  match get_sync_committee_bits u.sync_aggregate.sync_committee_bits with
  | .error _ => .error (.other "Couldn't process sync committee bits")
  | .ok sync_committee_bits =>
  match verify_signed_header api sync_committee_bits u.sync_aggregate.sync_committee_signature
      sync_committee.pubkeys u.fork_version
      ⟨u.block.slot, u.block.proposer_index, u.block.parent_root, u.block.state_root, body_root⟩
      s.validators_root with
  | .error e => .error e
  | .ok _ =>
      .ok (store_execution_header u.block.body.execution_payload.block_hash
            (execution_header_of_payload u.block.body.execution_payload) s)

/-! ## The dispatchables -/

/-- One ingress call with its payload. -/
inductive Call where
  | initialSync (u : InitialSync)
  | syncCommitteePeriodUpdate (u : SyncCommitteePeriodUpdate)
  | importFinalizedHeader (u : FinalizedHeaderUpdate)
  | importExecutionHeader (u : BlockUpdate)
  deriving DecidableEq

/-- The processing function each dispatchable delegates to. -/
def process_call (api : Api) (c : Call) (s : State) : Except Err State :=
  match c with
  | .initialSync u => process_initial_sync api s u
  | .syncCommitteePeriodUpdate u => process_sync_committee_period_update api s u
  | .importFinalizedHeader u => process_finalized_header api s u
  | .importExecutionHeader u => process_header api s u

/-- A dispatchable under `#[transactional]`: the host storage layer commits
the processed state on success and rolls every write back on error, so an
erroring call observably returns the pre-call state.  (The signed-origin
check is caller identity only, unused beyond presence, and is not
modelled.) -/
def dispatch (api : Api) (c : Call) (s : State) : Except Err Unit × State :=
  match process_call api c s with
  | .ok s1 => (.ok (), s1)
  | .error e => (.error e, s)

/-- A sequence of ingress calls, each applied transactionally. -/
def run_calls (api : Api) (cs : List Call) (s : State) : State :=
  cs.foldl (fun t c => (dispatch api c t).2) s

/-! ## The Merkle verifier of the specification's words (§4.C)

A second definition, kept deliberately distinct from
`is_valid_merkle_branch` above, following the claim's phrasing: the
direction bit at step `i` is `(generalized_index >>> i) &&& 1` in unsigned
64-bit arithmetic, and the fold is total. -/

/-- The specified fold: `value` hashed left or right of `branch[i]` as bit
`i` of `index` is 0 or 1. -/
def merkle_branch_fold_spec (index : Nat) : List H256 → Nat → H256 → H256
  | [], _, value => value
  | b :: rest, i, value =>
      merkle_branch_fold_spec index rest (i + 1)
        (if (index >>> i) &&& 1 = 0 then sha256Pair value b else sha256Pair b value)

/-- The specified verifier: reject on length mismatch, else fold and compare. -/
def is_valid_merkle_branch_spec (leaf : H256) (branch : List H256) (depth index : Nat)
    (root : H256) : Bool :=
  if branch.length = depth then merkle_branch_fold_spec index branch 0 leaf == root
  else false

/-! ## Concrete fixtures

Inputs for the evaluated theorems below.  Proof branches are all-zero
sibling lists; the corresponding state roots are defined as the value the
branch folds to, which is exactly what makes the Merkle checks pass. -/

/-- A total `Api` instantiation for concrete runs, everywhere consistent
with §4.D: the one BLS outcome the spec fixes — aggregation of an empty key
set fails — is honoured, and at the points the spec leaves abstract
(decoding of particular byte strings, aggregation and pairing over nonempty
key sets) it succeeds; the body root is zero. -/
def trivial_api : Api :=
  ⟨fun _ => true, fun _ => none, fun pks => !pks.isEmpty, fun _ _ _ => true, fun _ => .ok 0⟩

/-- A five-element all-zero proof branch. -/
def branch5 : List H256 := [0, 0, 0, 0, 0]

/-- A six-element all-zero proof branch. -/
def branch6 : List H256 := [0, 0, 0, 0, 0, 0]

/-- A sync aggregate with all 512 participation bits set. -/
def full_participation : SyncAggregate := ⟨List.replicate 64 255, List.replicate 96 0⟩

/-- C4: the 512-key committee initially stored at period 1. -/
def cex_committee_A : SyncCommittee := ⟨List.replicate 512 5, 0⟩

/-- C4: the differing 512-key committee the update stores over it. -/
def cex_committee_B : SyncCommittee := ⟨List.replicate 512 1, 0⟩

/-- C4: the 512-key committee stored at the current period 0, so the update's
signature check selects a nonempty participant set and the BLS outcome is
exercised only at points §4.D leaves abstract. -/
def cex_current_committee : SyncCommittee := ⟨List.replicate 512 7, 0⟩

/-- C4: a state with the current committee at period 0 and `sync_committees[1]`
already populated. -/
def cex_state : State :=
  { initial_state with
    sync_committees := [(0, cex_current_committee), (1, cex_committee_A)] }

/-- C4: a sync aggregate with all 512 participation bits set and a 96-byte
signature whose first byte carries the compression flag — a byte string whose
decode outcome the spec leaves to the BLS backend. -/
def cex_aggregate : SyncAggregate := ⟨List.replicate 64 255, 146 :: List.replicate 95 17⟩

/-- C4: the finalized header, whose state root commits to committee B at
generalized index 23, depth 5. -/
def cex_finalized_header : BeaconHeader :=
  ⟨0, 0, 0,
   (merkle_branch_fold 23 branch5 0
     ((hash_tree_root_sync_committee cex_committee_B).toOption.getD 0)).getD 0,
   0⟩

/-- C4: the attested header at slot 0 (period 0), whose state root commits to
the finalized header's root at generalized index 41, depth 6. -/
def cex_attested_header : BeaconHeader :=
  ⟨0, 0, 0,
   (merkle_branch_fold 41 branch6 0 (hash_tree_root_beacon_header cex_finalized_header)).getD 0,
   0⟩

/-- C4: a period update that passes every check and stores committee B at
period 0 + 1 = 1, where committee A already sits. -/
def cex_update : SyncCommitteePeriodUpdate :=
  ⟨cex_attested_header, cex_committee_B, branch5, cex_finalized_header, branch6,
   cex_aggregate, 0, 1⟩

/-- C4: the dispatched result of the overwriting update. -/
def cex_result : Except Err Unit × State :=
  dispatch trivial_api (.syncCommitteePeriodUpdate cex_update) cex_state

/-- C1: a 512-key committee for a valid initial sync. -/
def c1_committee : SyncCommittee := ⟨List.replicate 512 3, 0⟩

/-- C1: a header whose state root commits to the committee at generalized
index 22, depth 5. -/
def c1_header : BeaconHeader :=
  ⟨0, 0, 0,
   (merkle_branch_fold 22 branch5 0
     ((hash_tree_root_sync_committee c1_committee).toOption.getD 0)).getD 0,
   0⟩

/-- C1: a valid initial sync setting validators root 99. -/
def c1_update : InitialSync := ⟨c1_header, c1_committee, branch5, 99⟩

/-- C1: the state after a first successful initial sync. -/
def c1_after_first : State := (dispatch trivial_api (.initialSync c1_update) initial_state).2

/-- C10: a nonempty committee at period 0 so the lookup succeeds. -/
def w10_committee : SyncCommittee := ⟨[7], 0⟩

/-- C10: a state with that committee stored. -/
def w10_state : State := { initial_state with sync_committees := [(0, w10_committee)] }

/-- C10: an execution payload with block hash 5. -/
def w10_payload : ExecutionPayload := ⟨0, 0, 0, 0, [], 0, 0, 0, 0, 0, [], 0, 5, 0⟩

/-- C10: a block update at slot 0, covered by the zero finalized slot. -/
def w10_update : BlockUpdate := ⟨⟨0, 0, 0, 0, ⟨w10_payload⟩⟩, full_participation, 0⟩

/-- C9/C2: a block update at slot 1, beyond the zero finalized slot. -/
def w9_update : BlockUpdate := ⟨⟨1, 0, 0, 0, ⟨w10_payload⟩⟩, ⟨[], []⟩, 0⟩

/-- C6: 341 of 512 bits set — just below the supermajority bound. -/
def bits341 : List Nat := List.replicate 341 1 ++ List.replicate 171 0

/-- C6: 342 of 512 bits set — the least passing sum. -/
def bits342 : List Nat := List.replicate 342 1 ++ List.replicate 170 0

/-- C6: 384 of 512 bits set — exactly two thirds. -/
def bits384 : List Nat := List.replicate 384 1 ++ List.replicate 128 0

/-- C5: a 33-element branch, the least depth at which the 32-bit power wraps. -/
def branch33 : List H256 := List.replicate 33 0

/-- Every binding of the finalized-header map keys a header by its hash tree
root. -/
def ConsistentMap (m : List (H256 × BeaconHeader)) : Prop :=
  ∀ r h, mapLookup r m = some h → hash_tree_root_beacon_header h = r

/-- The storage invariant of claim C8, over a full state. -/
def FinalizedHeadersConsistent (s : State) : Prop :=
  ConsistentMap s.finalized_beacon_headers

/-- The key under which the C8 witness run stores its header. -/
def c8_root : H256 := hash_tree_root_beacon_header c1_header

/-! ## Theorems

First two cross-checks anchoring the SHA-256 implementation to library
digests, then supporting lemmas, then one theorem per claim. -/

/-- The digest of 64 zero bytes, as produced by any SHA-256 library. -/
theorem sha256Pair_zero_vector :
    sha256Pair 0 0 =
      0xf5a5fd42d16a20302798ef6ed309979b43003d2320d9f0e8ea9831a92759fb4b := by decide

/-- A second library cross-check: SHA-256 of the 32-byte value 1 followed by
the 32-byte value 2. -/
theorem sha256Pair_one_two_vector :
    sha256Pair 1 2 =
      0xd6ba9329f8932c12192b37849f772104d20048f76434a3290512d9d814e4116f := by decide

/-! ## Helper lemmas -/

theorem mapLookup_mapInsert_self {V : Type} (k : Nat) (v : V) (m : List (Nat × V)) :
    mapLookup k (mapInsert k v m) = some v := by
  unfold mapLookup mapInsert
  rw [List.find?_cons_of_pos _ (by simp)]
  rfl

theorem find?_filter_ne {V : Type} (k k' : Nat) (m : List (Nat × V)) (h : k' ≠ k) :
    (m.filter (fun p => p.1 != k)).find? (fun p => p.1 == k') =
      m.find? (fun p => p.1 == k') := by
  induction m with
  | nil => rfl
  | cons a t ih =>
      by_cases ha : a.1 = k
      · rw [List.filter_cons_of_neg (by simp [ha]),
          List.find?_cons_of_neg _ (by simp [ha]; omega)]
        exact ih
      · rw [List.filter_cons_of_pos (by simp [ha])]
        by_cases ha' : a.1 = k'
        · rw [List.find?_cons_of_pos _ (by simp [ha']),
            List.find?_cons_of_pos _ (by simp [ha'])]
        · rw [List.find?_cons_of_neg _ (by simp [ha']),
            List.find?_cons_of_neg _ (by simp [ha'])]
          exact ih

theorem mapLookup_mapInsert_ne {V : Type} (k k' : Nat) (v : V) (m : List (Nat × V))
    (h : k' ≠ k) : mapLookup k' (mapInsert k v m) = mapLookup k' m := by
  unfold mapLookup mapInsert
  rw [List.find?_cons_of_neg _ (by simp; omega), find?_filter_ne k k' m h]

theorem store_finalized_header_slot_le (r : H256) (h : BeaconHeader) (s : State) :
    s.latest_finalized_header_slot ≤
      (store_finalized_header r h s).latest_finalized_header_slot := by
  simp only [store_finalized_header]
  split
  · simp
    omega
  · simp

theorem store_finalized_header_finalized (r : H256) (h : BeaconHeader) (s : State) :
    (store_finalized_header r h s).finalized_beacon_headers =
      mapInsert r h s.finalized_beacon_headers := by
  simp only [store_finalized_header]
  split <;> rfl

theorem store_finalized_header_committees (r : H256) (h : BeaconHeader) (s : State) :
    (store_finalized_header r h s).sync_committees = s.sync_committees := by
  simp only [store_finalized_header]
  split <;> rfl

theorem store_sync_committee_slot (p : Nat) (c : SyncCommittee) (s : State) :
    (store_sync_committee p c s).latest_finalized_header_slot =
      s.latest_finalized_header_slot := rfl

theorem store_sync_committee_committees (p : Nat) (c : SyncCommittee) (s : State) :
    (store_sync_committee p c s).sync_committees = mapInsert p c s.sync_committees := rfl

theorem store_validators_root_slot (r : H256) (s : State) :
    (store_validators_root r s).latest_finalized_header_slot =
      s.latest_finalized_header_slot := rfl

/-! ## Success-shape lemmas

Each processing function's success state, characterized as the store
composition the Rust code performs. -/

theorem process_initial_sync_ok (api : Api) (s : State) (u : InitialSync) (s1 : State)
    (h : process_initial_sync api s u = .ok s1) :
    s1 = store_validators_root u.validators_root
      (store_finalized_header (hash_tree_root_beacon_header u.header) u.header
        (store_sync_committee (compute_current_sync_period u.header.slot)
          u.current_sync_committee s)) := by
  unfold process_initial_sync at h
  split at h
  · exact Except.noConfusion h
  · injection h with h1
    exact h1.symm

theorem process_sync_committee_period_update_ok (api : Api) (s : State)
    (u : SyncCommitteePeriodUpdate) (s1 : State)
    (h : process_sync_committee_period_update api s u = .ok s1) :
    s1 = store_finalized_header (hash_tree_root_beacon_header u.finalized_header)
          u.finalized_header
          (store_sync_committee (compute_current_sync_period u.attested_header.slot + 1)
            u.next_sync_committee s) := by
  unfold process_sync_committee_period_update at h
  split at h
  · exact Except.noConfusion h
  · split at h
    · exact Except.noConfusion h
    · split at h
      · exact Except.noConfusion h
      · split at h
        · exact Except.noConfusion h
        · split at h
          · exact Except.noConfusion h
          · injection h with h1
            exact h1.symm

theorem process_finalized_header_ok (api : Api) (s : State) (u : FinalizedHeaderUpdate)
    (s1 : State) (h : process_finalized_header api s u = .ok s1) :
    s1 = store_finalized_header (hash_tree_root_beacon_header u.finalized_header)
          u.finalized_header s := by
  unfold process_finalized_header at h
  split at h
  · exact Except.noConfusion h
  · split at h
    · exact Except.noConfusion h
    · split at h
      · exact Except.noConfusion h
      · split at h
        · exact Except.noConfusion h
        · split at h
          · exact Except.noConfusion h
          · injection h with h1
            exact h1.symm

theorem process_header_ok (api : Api) (s : State) (u : BlockUpdate) (s1 : State)
    (h : process_header api s u = .ok s1) :
    s1 = store_execution_header u.block.body.execution_payload.block_hash
          (execution_header_of_payload u.block.body.execution_payload) s := by
  unfold process_header at h
  split at h
  · exact Except.noConfusion h
  · split at h
    · exact Except.noConfusion h
    · split at h
      · exact Except.noConfusion h
      · split at h
        · exact Except.noConfusion h
        · split at h
          · exact Except.noConfusion h
          · injection h with h1
            exact h1.symm

/-! ## The finalized-header key invariant -/

theorem consistent_store_finalized (h : BeaconHeader) (s : State)
    (hs : FinalizedHeadersConsistent s) :
    FinalizedHeadersConsistent
      (store_finalized_header (hash_tree_root_beacon_header h) h s) := by
  intro r h2 hl
  rw [store_finalized_header_finalized] at hl
  by_cases hr : r = hash_tree_root_beacon_header h
  · subst hr
    rw [mapLookup_mapInsert_self] at hl
    cases hl
    rfl
  · rw [mapLookup_mapInsert_ne _ _ _ _ hr] at hl
    exact hs r h2 hl

theorem dispatch_preserves_consistent (api : Api) (c : Call) (s : State)
    (hs : FinalizedHeadersConsistent s) :
    FinalizedHeadersConsistent (dispatch api c s).2 := by
  unfold dispatch
  cases hc : process_call api c s with
  | error e => exact hs
  | ok s1 =>
      cases c with
      | initialSync u =>
          simp only [process_call] at hc
          rw [process_initial_sync_ok api s u s1 hc]
          exact consistent_store_finalized u.header _ hs
      | syncCommitteePeriodUpdate u =>
          simp only [process_call] at hc
          rw [process_sync_committee_period_update_ok api s u s1 hc]
          exact consistent_store_finalized u.finalized_header _ hs
      | importFinalizedHeader u =>
          simp only [process_call] at hc
          rw [process_finalized_header_ok api s u s1 hc]
          exact consistent_store_finalized u.finalized_header _ hs
      | importExecutionHeader u =>
          simp only [process_call] at hc
          rw [process_header_ok api s u s1 hc]
          exact hs

theorem run_calls_consistent (api : Api) (cs : List Call) :
    ∀ s : State, FinalizedHeadersConsistent s →
      FinalizedHeadersConsistent (run_calls api cs s) := by
  induction cs with
  | nil => exact fun s hs => hs
  | cons c t ih =>
      intro s hs
      exact ih _ (dispatch_preserves_consistent api c s hs)

theorem initial_state_consistent : FinalizedHeadersConsistent initial_state := by
  intro r h hl
  simp [mapLookup, initial_state] at hl

/-! ## Error classification lemmas -/

theorem supermajority_error (bits : List Nat) (e : Err)
    (h : sync_committee_participation_is_supermajority bits = .error e) :
    e = .syncCommitteeParticipantsNotSupermajority := by
  unfold sync_committee_participation_is_supermajority at h
  split at h
  · exact Except.noConfusion h
  · injection h with h1
    exact h1.symm

theorem verify_sync_committee_not_missing (c : SyncCommittee) (b : List H256) (r : H256)
    (d i : Nat) : verify_sync_committee c b r d i ≠ .error .syncCommitteeMissing := by
  unfold verify_sync_committee
  split
  · simp
  · split <;> simp

theorem verify_header_not_missing (br : H256) (b : List H256) (r : H256) (d i : Nat) :
    verify_header br b r d i ≠ .error .syncCommitteeMissing := by
  unfold verify_header
  split <;> simp

theorem bls_fast_aggregate_verify_not_missing (api : Api) (pk : List PublicKey) (m : H256)
    (sg : List Nat) : bls_fast_aggregate_verify api pk m sg ≠ .error .syncCommitteeMissing := by
  unfold bls_fast_aggregate_verify
  split
  · split
    · simp
    · simp
    · split <;> [split <;> simp; simp]
  · simp

theorem verify_signed_header_not_missing (api : Api) (bits sg : List Nat)
    (pk : List PublicKey) (fv : Nat) (hd : BeaconHeader) (vr : H256) :
    verify_signed_header api bits sg pk fv hd vr ≠ .error .syncCommitteeMissing := by
  unfold verify_signed_header
  exact bls_fast_aggregate_verify_not_missing api _ _ _

/-! ## Arithmetic lemmas for the supermajority bound -/

theorem foldl_wrap_eq_sum (bits : List Nat) :
    ∀ acc : Nat, (∀ b ∈ bits, b < 256) →
      acc + 256 * bits.length ≤ 18446744073709551616 →
      bits.foldl (fun a x => (a + x) % 18446744073709551616) acc = acc + bits.sum := by
  induction bits with
  | nil => intro acc _ _; simp
  | cons b t ih =>
      intro acc hb hlen
      simp only [List.foldl_cons, List.sum_cons, List.length_cons] at hlen ⊢
      have hb0 : b < 256 := hb b (by simp)
      have hmod : (acc + b) % 18446744073709551616 = acc + b :=
        Nat.mod_eq_of_lt (by omega)
      rw [hmod, ih (acc + b) (fun x hx => hb x (by simp [hx])) (by omega)]
      omega

theorem get_sync_committee_sum_eq_sum (bits : List Nat)
    (hb : ∀ b ∈ bits, b < 256) (hl : bits.length ≤ 1125899906842624) :
    get_sync_committee_sum bits = bits.sum := by
  unfold get_sync_committee_sum
  rw [foldl_wrap_eq_sum bits 0 hb (by omega)]
  omega

theorem sum_le_mul_length (bits : List Nat) (hb : ∀ b ∈ bits, b < 256) :
    bits.sum ≤ 255 * bits.length := by
  induction bits with
  | nil => simp
  | cons b t ih =>
      simp only [List.sum_cons, List.length_cons]
      have hb0 : b < 256 := hb b (by simp)
      have := ih (fun x hx => hb x (by simp [hx]))
      omega

/-! ## A fold-only agreement lemma for the Merkle verifier -/

theorem merkle_branch_fold_eq_spec (index : Nat) (branch : List H256) :
    ∀ (i : Nat) (value : H256), i + branch.length ≤ 32 →
      merkle_branch_fold index branch i value =
        some (merkle_branch_fold_spec index branch i value) := by
  induction branch with
  | nil => intro i v _; rfl
  | cons b rest ih =>
      intro i v hle
      simp only [List.length_cons] at hle
      unfold merkle_branch_fold merkle_branch_fold_spec
      have hlt : i < 32 := by omega
      have hpow : (2 : Nat) ^ i < 4294967296 := by
        calc (2 : Nat) ^ i < 2 ^ 32 := Nat.pow_lt_pow_right (by omega) hlt
        _ = 4294967296 := by norm_num
      have hp : (2 ^ i) % 4294967296 = 2 ^ i := Nat.mod_eq_of_lt hpow
      rw [hp]
      have hnz : ¬((2 : Nat) ^ i = 0) := by positivity
      rw [if_neg hnz]
      have hbit : index / 2 ^ i % 2 = (index >>> i) &&& 1 := by
        rw [Nat.shiftRight_eq_div_pow, Nat.and_one_is_mod]
      rw [hbit]
      exact ih (i + 1) _ (by omega)

/-- The code's Merkle verifier agrees with the specified one at every depth
up to 32 — in particular at the depths 5 and 6 the engine uses. -/
theorem is_valid_merkle_branch_agrees_below_33 (leaf : H256) (branch : List H256)
    (depth index : Nat) (root : H256) (h : depth ≤ 32) :
    is_valid_merkle_branch leaf branch depth index root =
      some (is_valid_merkle_branch_spec leaf branch depth index root) := by
  unfold is_valid_merkle_branch is_valid_merkle_branch_spec
  by_cases hl : branch.length = depth
  · rw [if_pos hl, if_pos hl, merkle_branch_fold_eq_spec index branch 0 leaf (by omega)]
    rfl
  · rw [if_neg hl, if_neg hl]

/-! ## Claim theorems -/

/-- Claim C1 (code bug): `process_initial_sync` performs no
already-initialized check at all — its outcome is invariant under the stored
`validators_root` (first conjunct, for every `Api`, state, payload and prior
root), and concretely a valid initial sync dispatched against genesis
succeeds, sets `validators_root` to 99, and when resubmitted against the
resulting state succeeds again instead of failing (remaining conjuncts). -/
theorem initial_sync_never_refused :
    (∀ (api : Api) (s : State) (u : InitialSync) (r : H256),
      process_initial_sync api { s with validators_root := r } u =
        process_initial_sync api s u)
    ∧ (dispatch trivial_api (.initialSync c1_update) initial_state).1 = .ok ()
    ∧ c1_after_first.validators_root = 99
    ∧ (dispatch trivial_api (.initialSync c1_update) c1_after_first).1 = .ok () := by
  refine ⟨?_, by decide, by decide, by decide⟩
  intro api s u r
  unfold process_initial_sync
  cases hv : verify_sync_committee u.current_sync_committee u.current_sync_committee_branch
      u.header.state_root CURRENT_SYNC_COMMITTEE_DEPTH CURRENT_SYNC_COMMITTEE_INDEX with
  | error e => rfl
  | ok a =>
      simp only [store_validators_root, store_finalized_header, store_sync_committee]
      split <;> rfl

/-- Claim C2 (confirmed): every ingress call is atomic — under the
`#[transactional]` rollback (modelled by `dispatch`), a call that returns an
error leaves the persistent state exactly as it was; in particular the
committee entry `process_sync_committee_period_update` inserts before
signature verification does not survive a failing call. -/
theorem ingress_error_rolls_back (api : Api) (c : Call) (s : State) (e : Err) (s1 : State)
    (h : dispatch api c s = (.error e, s1)) : s1 = s := by
  unfold dispatch at h
  split at h
  · exact absurd (congrArg Prod.fst h) (by simp)
  · exact (congrArg Prod.snd h).symm

/-- Witness for C2: importing an execution header at slot 1 against genesis
(latest finalized slot 0) fails, and the dispatched state is genesis again. -/
theorem ingress_error_rolls_back_witness :
    (dispatch trivial_api (.importExecutionHeader w9_update) initial_state).2 =
      initial_state :=
  ingress_error_rolls_back trivial_api (.importExecutionHeader w9_update) initial_state
    .headerNotFinalized
    (dispatch trivial_api (.importExecutionHeader w9_update) initial_state).2 (by decide)

/-- Claim C3 (code bug): `process_sync_committee_period_update` never fails
with `SyncCommitteeMissing`, for any `Api`, state and payload — it reads the
current committee with a raw `ValueQuery` get instead of
`get_sync_committee_for_period`, so a missing committee is never detected as
such. -/
theorem period_update_never_sync_committee_missing (api : Api) (s : State)
    (u : SyncCommitteePeriodUpdate) :
    process_sync_committee_period_update api s u ≠ .error .syncCommitteeMissing := by
  intro hcontra
  unfold process_sync_committee_period_update at hcontra
  split at hcontra
  · simp at hcontra
  · split at hcontra
    · rename_i e heq
      injection hcontra with h1
      subst h1
      exact absurd (supermajority_error _ _ heq) (by simp)
    · split at hcontra
      · rename_i e heq
        injection hcontra with h1
        subst h1
        exact verify_sync_committee_not_missing _ _ _ _ _ heq
      · split at hcontra
        · rename_i e heq
          injection hcontra with h1
          subst h1
          exact verify_header_not_missing _ _ _ _ _ heq
        · split at hcontra
          · rename_i e heq
            injection hcontra with h1
            subst h1
            exact verify_signed_header_not_missing _ _ _ _ _ _ _ heq
          · exact Except.noConfusion hcontra

/-- Counterexample to claim C4: a period update whose branches, supermajority
and signature checks all pass — with a nonempty participant set drawn from
the stored current committee, so no BLS step the spec fixes can fail —
dispatched against a state whose `sync_committees[1]` already holds
committee A, is accepted and silently replaces the entry with the differing
committee B; it is not rejected with `Unknown`. -/
theorem sync_committee_overwritten_counterexample :
    cex_result.1 = .ok () ∧
    mapLookup 1 cex_state.sync_committees = some cex_committee_A ∧
    mapLookup 1 cex_result.2.sync_committees = some cex_committee_B ∧
    cex_committee_A ≠ cex_committee_B :=
  ⟨by decide, by decide, by decide, by decide⟩

/-- Claim C4 as amended: `store_sync_committee` is an unconditional insert —
every successful period update stores its `next_sync_committee` at
`period_of(attested_header.slot) + 1`, replacing whatever was there, with no
byte comparison and no `Unknown` rejection. -/
theorem period_update_overwrites_committee (api : Api) (s : State)
    (u : SyncCommitteePeriodUpdate) (s1 : State)
    (h : process_sync_committee_period_update api s u = .ok s1) :
    mapLookup (compute_current_sync_period u.attested_header.slot + 1) s1.sync_committees =
      some u.next_sync_committee := by
  rw [process_sync_committee_period_update_ok api s u s1 h,
    store_finalized_header_committees, store_sync_committee_committees,
    mapLookup_mapInsert_self]

/-- Witness for the amended C4, at the counterexample input. -/
theorem period_update_overwrites_committee_witness :
    mapLookup 1 ((process_sync_committee_period_update trivial_api cex_state
        cex_update).toOption.getD initial_state).sync_committees =
      some cex_committee_B :=
  period_update_overwrites_committee trivial_api cex_state cex_update _ (by decide)

/-- Claim C5 (code bug): at depth 33 the code's verifier faults — the 32-bit
`2u32.pow(i)` wraps to zero at step 32 and the `index / 0` that follows is a
fault in every build configuration (first conjunct), while the specified
fold, with its unsigned 64-bit bit test `(index >>> i) &&& 1`, is total and
accepts the root its own fold produces (second conjunct). -/
theorem merkle_verifier_faults_beyond_depth_32 :
    is_valid_merkle_branch 0 branch33 33 0 0 = none ∧
    is_valid_merkle_branch_spec 0 branch33 33 0
      (merkle_branch_fold_spec 0 branch33 0 0) = true :=
  ⟨by decide, by decide⟩

/-- Claim C6 (confirmed): the supermajority check succeeds exactly when
`sum × 3 ≥ length × 2` (first conjunct, for byte vectors of any realistic
length — the bound keeps the `u64` arithmetic exact), and at length 512 it
fails at sum 341 and passes at sums 342 and 384 (remaining conjuncts). -/
theorem supermajority_check_exact :
    (∀ bits : List Nat, (∀ b ∈ bits, b < 256) → bits.length ≤ 1125899906842624 →
      (sync_committee_participation_is_supermajority bits = .ok () ↔
        3 * bits.sum ≥ 2 * bits.length))
    ∧ sync_committee_participation_is_supermajority bits341 =
        .error .syncCommitteeParticipantsNotSupermajority
    ∧ sync_committee_participation_is_supermajority bits342 = .ok ()
    ∧ sync_committee_participation_is_supermajority bits384 = .ok () := by
  refine ⟨?_, by decide, by decide, by decide⟩
  intro bits hb hl
  unfold sync_committee_participation_is_supermajority
  rw [get_sync_committee_sum_eq_sum bits hb hl]
  have hsum := sum_le_mul_length bits hb
  have h1 : bits.sum * 3 % 18446744073709551616 = bits.sum * 3 :=
    Nat.mod_eq_of_lt (by omega)
  have h2 : bits.length * 2 % 18446744073709551616 = bits.length * 2 :=
    Nat.mod_eq_of_lt (by omega)
  rw [h1, h2]
  split
  · rename_i hge
    simp only [true_iff, iff_true]
    omega
  · rename_i hlt
    constructor
    · intro hcontra
      exact absurd hcontra (by simp)
    · intro hge
      omega

/-- Witness for C6: 342 of 512 set bits has `3 × sum ≥ 2 × 512` and passes. -/
theorem supermajority_check_exact_witness :
    sync_committee_participation_is_supermajority bits342 = .ok () :=
  (supermajority_check_exact.1 bits342 (by decide) (by decide)).mpr (by decide)

/-- Claim C7 (confirmed): `latest_finalized_header_slot` never decreases
across any ingress call, from any state (reachable or not), for any `Api`:
failing calls roll back, and every successful path either raises the slot
through `store_finalized_header` or leaves it untouched. -/
theorem latest_finalized_slot_monotone (api : Api) (c : Call) (s : State) :
    s.latest_finalized_header_slot ≤
      (dispatch api c s).2.latest_finalized_header_slot := by
  unfold dispatch
  cases hc : process_call api c s with
  | error e => exact Nat.le_refl _
  | ok s1 =>
      simp only []
      cases c with
      | initialSync u =>
          simp only [process_call] at hc
          rw [process_initial_sync_ok api s u s1 hc, store_validators_root_slot]
          calc s.latest_finalized_header_slot
              = (store_sync_committee (compute_current_sync_period u.header.slot)
                  u.current_sync_committee s).latest_finalized_header_slot := rfl
            _ ≤ _ := store_finalized_header_slot_le _ _ _
      | syncCommitteePeriodUpdate u =>
          simp only [process_call] at hc
          rw [process_sync_committee_period_update_ok api s u s1 hc]
          calc s.latest_finalized_header_slot
              = (store_sync_committee (compute_current_sync_period u.attested_header.slot + 1)
                  u.next_sync_committee s).latest_finalized_header_slot := rfl
            _ ≤ _ := store_finalized_header_slot_le _ _ _
      | importFinalizedHeader u =>
          simp only [process_call] at hc
          rw [process_finalized_header_ok api s u s1 hc]
          exact store_finalized_header_slot_le _ _ _
      | importExecutionHeader u =>
          simp only [process_call] at hc
          rw [process_header_ok api s u s1 hc]
          exact Nat.le_refl _

/-- Claim C8 (confirmed): in every state reachable from genesis by any
sequence of ingress calls under any `Api`, every header stored in
`finalized_beacon_headers` sits under its own hash tree root. -/
theorem finalized_headers_keyed_by_root (api : Api) (cs : List Call) (r : H256)
    (h : BeaconHeader)
    (hl : mapLookup r (run_calls api cs initial_state).finalized_beacon_headers = some h) :
    hash_tree_root_beacon_header h = r :=
  run_calls_consistent api cs initial_state initial_state_consistent r h hl

/-- Witness for C8: after a successful initial sync from genesis, the stored
finalized header is found precisely under its hash tree root. -/
theorem finalized_headers_keyed_by_root_witness :
    hash_tree_root_beacon_header c1_header = c8_root :=
  finalized_headers_keyed_by_root trivial_api [.initialSync c1_update] c8_root c1_header
    (by decide)

/-- Claim C9 (confirmed): an execution-header import whose block slot exceeds
the stored latest finalized slot fails with `HeaderNotFinalized` and leaves
the state untouched, for every `Api` and every value of the payload's other
fields — the finalization bound is checked before anything else. -/
theorem import_execution_header_requires_finality (api : Api) (s : State) (u : BlockUpdate)
    (h : u.block.slot > s.latest_finalized_header_slot) :
    dispatch api (.importExecutionHeader u) s = (.error .headerNotFinalized, s) := by
  unfold dispatch
  simp only [process_call]
  unfold process_header
  rw [if_pos h]

/-- Witness for C9: slot 1 against genesis. -/
theorem import_execution_header_requires_finality_witness :
    dispatch trivial_api (.importExecutionHeader w9_update) initial_state =
      (.error .headerNotFinalized, initial_state) :=
  import_execution_header_requires_finality trivial_api initial_state w9_update (by decide)

/-- Claim C10 (confirmed): a successful `process_header` changes exactly the
execution-headers map — one insert keyed by the payload's block hash — and
every other storage item, including the never-written `beacon_headers` map
(so the reconstructed, signature-verified `BeaconHeader` is not persisted),
is unchanged. -/
theorem import_execution_header_frame (api : Api) (s : State) (u : BlockUpdate) (s1 : State)
    (h : process_header api s u = .ok s1) :
    s1 = { s with execution_headers :=
      (mapInsert u.block.body.execution_payload.block_hash
        (execution_header_of_payload u.block.body.execution_payload)
        s.execution_headers) } :=
  process_header_ok api s u s1 h

/-- Witness for C10: a successful import at slot 0 with a stored committee,
evaluated concretely. -/
theorem import_execution_header_frame_witness :
    (process_header trivial_api w10_state w10_update).toOption.getD initial_state =
      { w10_state with execution_headers :=
          (mapInsert w10_update.block.body.execution_payload.block_hash
            (execution_header_of_payload w10_update.block.body.execution_payload)
            w10_state.execution_headers) } :=
  import_execution_header_frame trivial_api w10_state w10_update _ (by decide)

end Snowbridge
